import Mathlib

/-!
Verification of the stats-acquisition and scoring pipeline of the
CodeTracker backend (rooms/users routes, leetcodeService, githubService).

JavaScript numbers are modelled as rationals, JavaScript
absent-or-present fields as `Option`, and the truthiness test `x || d`
on numeric fields as `jsOr`.  Fallible operations (awaited calls that
may reject) are modelled as `Except String`.
-/

namespace Leadcode

/-- JS `x || d` for a possibly-missing numeric field: a missing field and
the number 0 are falsy and give the default. -/
def jsOr (x : Option ℚ) (d : ℚ) : ℚ :=
  match x with
  | some q => if q = 0 then d else q
  | none => d

/-- JS `s` truthiness for a possibly-missing string field: missing and the
empty string are falsy. -/
def jsStr (x : Option String) : Bool :=
  match x with
  | some s => s ≠ ""
  | none => false

/-! ## Data model (Room.js participant subdocument) -/

/-- Stored problem-solving snapshot: `stats.leetcode` of a participant
(fields `easy`, `medium`, `hard`, `total`). -/
structure LeetSnap where
  easy : Option ℚ
  medium : Option ℚ
  hard : Option ℚ
  total : Option ℚ
deriving DecidableEq, Repr

/-- Stored commit-activity snapshot: `stats.github` of a participant. -/
structure GitSnap where
  totalCommits : Option ℚ
  weeklyCommits : Option ℚ
  monthlyCommits : Option ℚ
deriving DecidableEq, Repr

/-- The `stats` field of a participant. -/
structure ParticipantStats where
  leetcode : Option LeetSnap
  github : Option GitSnap
deriving DecidableEq, Repr

/-- The `profiles` field of a participant (linked provider usernames). -/
structure Profiles where
  leetcode : Option String
  github : Option String
deriving DecidableEq, Repr

/-- A room participant, with the fields the leaderboard handler reads. -/
structure Participant where
  auth0Id : String
  name : String
  picture : String
  role : String
  isActive : Option Bool
  profiles : Option Profiles
  stats : ParticipantStats
  statsLastUpdated : ℚ
deriving DecidableEq, Repr

/-- Leaderboard weight settings (`settings.leaderboard`). -/
structure LeaderboardSettings where
  weightLeetCode : ℚ
  weightGitHub : ℚ
deriving DecidableEq, Repr

/-- The slice of a room the leaderboard handler uses. -/
structure Room where
  participants : List Participant
  settings : LeaderboardSettings
deriving DecidableEq, Repr

/-! ## Score calculator -/

/-- `calculateLeetCodeScore` (leetcodeService.js, standalone export): the
function imported and called by the leaderboard route.  Reads fields
`easy`, `medium`, `hard` with weights 1, 2, 3; a falsy argument gives 0. -/
def calculateLeetCodeScore (leetcodeStats : Option LeetSnap) : ℚ :=
  match leetcodeStats with
  | none => 0
  | some st =>
      jsOr st.easy 0 * 1 + jsOr st.medium 0 * 2 + jsOr st.hard 0 * 3

/-- `leetcodeAPI.calculateLeetCodeScore` (leetcodeService.js, method on the
service object): weights 1, 3, 5 over `easySolved`, `mediumSolved`,
`hardSolved`.  It is NOT the function used by the leaderboard route. -/
def leetcodeAPI.calculateLeetCodeScore (easySolved mediumSolved hardSolved : ℚ) : ℚ :=
  easySolved * 1 + mediumSolved * 3 + hardSolved * 5

/-- GitHub score as computed inline in the leaderboard handler
(rooms.js): `totalCommits || 0` with the 1030 hotfix applied, plus
`weeklyCommits * 2` plus `monthlyCommits * 0.5`. -/
def githubScore (g : GitSnap) : ℚ :=
  let githubCommits := jsOr g.totalCommits 0
  let githubCommits := if githubCommits = 1030 then 565 else githubCommits
  githubCommits + jsOr g.weeklyCommits 0 * 2 + jsOr g.monthlyCommits 0 * (1 / 2)

/-- The display-side hotfix (rooms.js): a stored `totalCommits` of exactly
1030 is shown as 565; everything else is shown unchanged. -/
def displayStats (stats : ParticipantStats) : ParticipantStats :=
  match stats.github with
  | some g =>
      if g.totalCommits = some 1030 then
        { stats with github := some { g with totalCommits := some 565 } }
      else stats
  | none => stats

/-! ## Leaderboard ranker (GET /:roomId/leaderboard) -/

/-- A leaderboard entry before rank assignment. -/
structure LBEntry where
  auth0Id : String
  name : String
  picture : String
  role : String
  profiles : Profiles
  stats : ParticipantStats
  totalScore : ℤ
  lastUpdated : ℚ
deriving DecidableEq, Repr

/-- A leaderboard entry after rank assignment. -/
structure RankedEntry where
  auth0Id : String
  name : String
  picture : String
  role : String
  profiles : Profiles
  stats : ParticipantStats
  totalScore : ℤ
  lastUpdated : ℚ
  rank : ℕ
deriving DecidableEq, Repr

/-- The rank-free part of a ranked entry (the JS spread `...participant`). -/
def RankedEntry.entry (e : RankedEntry) : LBEntry :=
  { auth0Id := e.auth0Id, name := e.name, picture := e.picture, role := e.role
    profiles := e.profiles, stats := e.stats, totalScore := e.totalScore
    lastUpdated := e.lastUpdated }

/-- The per-participant mapping of the leaderboard handler: compute the
weighted composite score (LeetCode part added only when `stats.leetcode`
is truthy and `weightLeetCode > 0`, GitHub part only when `stats.github`
is truthy and `weightGitHub > 0`), round once with `Math.round`, and
attach display fields with the display hotfix applied. -/
def mkEntry (settings : LeaderboardSettings) (p : Participant) : LBEntry :=
  let lcPart : ℚ :=
    match p.stats.leetcode with
    | some st =>
        if 0 < settings.weightLeetCode then
          calculateLeetCodeScore (some st) * settings.weightLeetCode
        else 0
    | none => 0
  let ghPart : ℚ :=
    match p.stats.github with
    | some g =>
        if 0 < settings.weightGitHub then
          githubScore g * settings.weightGitHub
        else 0
    | none => 0
  { auth0Id := p.auth0Id, name := p.name, picture := p.picture, role := p.role
    profiles := p.profiles.getD { leetcode := none, github := none }
    stats := displayStats p.stats
    totalScore := round (lcPart + ghPart)
    lastUpdated := p.statsLastUpdated }

/-- The comparator of the leaderboard sort, `(a, b) => b.totalScore -
a.totalScore` with a stable sort: `a` may come before `b` exactly when
`b.totalScore ≤ a.totalScore`. -/
def lbLE (a b : LBEntry) : Prop := b.totalScore ≤ a.totalScore

instance : DecidableRel lbLE := fun a b =>
  inferInstanceAs (Decidable (b.totalScore ≤ a.totalScore))

/-- The entries of the active participants of a room, in stored order. -/
def lbEntries (room : Room) : List LBEntry :=
  (room.participants.filter (fun p => p.isActive ≠ some false)).map
    (mkEntry room.settings)

/-- The final `.map((participant, index) => ({...participant, rank: index + 1}))`. -/
def addRanks : ℕ → List LBEntry → List RankedEntry
  | _, [] => []
  | i, e :: es =>
      { auth0Id := e.auth0Id, name := e.name, picture := e.picture, role := e.role
        profiles := e.profiles, stats := e.stats, totalScore := e.totalScore
        lastUpdated := e.lastUpdated, rank := i } :: addRanks (i + 1) es

/-- The leaderboard computation: filter active participants, map to
entries, stable-sort by descending `totalScore`, assign 1-based ranks. -/
def leaderboard (room : Room) : List RankedEntry :=
  addRanks 1 ((lbEntries room).insertionSort lbLE)

/-- The GitHub contribution to the composite score before weighting:
zero when the participant has no stored GitHub snapshot. -/
def githubScoreOpt : Option GitSnap → ℚ
  | some g => githubScore g
  | none => 0

/-- Modelled from the claim wording of C1, for comparison with the code:
problem score with weights 1, 3, 5 over the stored snapshot. -/
def specProblemScore (st : LeetSnap) : ℚ :=
  jsOr st.easy 0 * 1 + jsOr st.medium 0 * 3 + jsOr st.hard 0 * 5

theorem jsOr_some_zero (v : ℚ) : jsOr (some v) 0 = v := by
  unfold jsOr; split <;> simp_all

/-! ## Concrete rooms used in counterexamples and examples -/

/-- Stored LeetCode snapshot easy 10, medium 5, hard 2. -/
def exSnapC1 : LeetSnap :=
  { easy := some 10, medium := some 5, hard := some 2, total := some 17 }

/-- A participant whose stored LeetCode snapshot is `exSnapC1` and who has
no GitHub snapshot. -/
def exPartC1 : Participant :=
  { auth0Id := "u1", name := "A", picture := "", role := "participant"
    isActive := none, profiles := none
    stats := { leetcode := some exSnapC1, github := none }
    statsLastUpdated := 0 }

/-- A room holding only `exPartC1`, with full LeetCode weight. -/
def exRoomC1 : Room :=
  { participants := [exPartC1], settings := { weightLeetCode := 1, weightGitHub := 0 } }

/-- Stored GitHub snapshot with totalCommits 1030 and no recent commits. -/
def exGitC7 : GitSnap :=
  { totalCommits := some 1030, weeklyCommits := some 0, monthlyCommits := some 0 }

/-- A participant whose stored GitHub snapshot is `exGitC7`. -/
def exPartC7 : Participant :=
  { auth0Id := "u2", name := "G", picture := "", role := "participant"
    isActive := none, profiles := none
    stats := { leetcode := none, github := some exGitC7 }
    statsLastUpdated := 0 }

/-- A room holding only `exPartC7`, with full GitHub weight. -/
def exRoomC7 : Room :=
  { participants := [exPartC7], settings := { weightLeetCode := 0, weightGitHub := 1 } }

/-! ## C1: composite score -/

/-- C1 (counterexample): with the stored snapshot easy 10, medium 5,
hard 2, weight 1 for LeetCode and no GitHub contribution, the leaderboard
totalScore is 26, while the formula claimed in C1
(easySolved x1 + mediumSolved x3 + hardSolved x5) predicts 35. -/
theorem C1_leetcode_weights_counterexample :
    (leaderboard exRoomC1).map (fun e => e.totalScore) = [26]
    ∧ round (specProblemScore exSnapC1 * (1 : ℚ) + 0 * 0) = 35
    ∧ (26 : ℤ) ≠ 35 := by
  refine ⟨?_, ?_, by decide⟩
  · norm_num [leaderboard, lbEntries, mkEntry, addRanks, List.insertionSort,
      List.orderedInsert, calculateLeetCodeScore, githubScore, jsOr, displayStats, lbLE,
      exRoomC1, exPartC1, exSnapC1, round_eq]
  · norm_num [specProblemScore, exSnapC1, jsOr, round_eq]

/-- C1 (amended): each listed participant's totalScore equals
round(problemScore x weightLeetCode + commitScore x weightGitHub), where
the problem score over the stored snapshot uses weights 1, 2, 3
(easy x1 + medium x2 + hard x3), rounding happens once at leaderboard
construction, and a missing provider snapshot contributes zero. -/
theorem C1_totalScore_eq_round_weighted (settings : LeaderboardSettings) (p : Participant)
    (hL : 0 ≤ settings.weightLeetCode) (hG : 0 ≤ settings.weightGitHub) :
    (mkEntry settings p).totalScore =
      round (calculateLeetCodeScore p.stats.leetcode * settings.weightLeetCode +
        githubScoreOpt p.stats.github * settings.weightGitHub) := by
  have hsc : ∀ wq : ℚ, 0 ≤ wq → ∀ s : ℚ, (if 0 < wq then s * wq else 0) = s * wq := by
    intro wq hw s
    rcases eq_or_lt_of_le hw with h | h
    · simp [← h]
    · simp [h]
  rcases hlc : p.stats.leetcode with _ | st <;> rcases hgh : p.stats.github with _ | g <;>
    simp [mkEntry, hlc, hgh, githubScoreOpt, calculateLeetCodeScore, hsc _ hL, hsc _ hG]

/-- C1 witness: the amended equation at a concrete participant and the
default weights 0.6 and 0.4. -/
theorem C1_totalScore_witness :
    (mkEntry { weightLeetCode := 3/5, weightGitHub := 2/5 } exPartC1).totalScore =
      round (calculateLeetCodeScore exPartC1.stats.leetcode * (3/5 : ℚ) +
        githubScoreOpt exPartC1.stats.github * (2/5 : ℚ)) :=
  C1_totalScore_eq_round_weighted { weightLeetCode := 3/5, weightGitHub := 2/5 } exPartC1
    (by norm_num) (by norm_num)

/-! ## C4: the 1030 hotfix -/

/-- C4: when a participant's stored totalCommits is v, the leaderboard
shows and scores the value (if v = 1030 then 565 else v): the display
snapshot carries exactly that value, the commit score uses exactly that
value, and the value differs from v precisely when v = 1030 (so 1029 and
1031 pass through unchanged). -/
theorem C4_hotfix_1030 (settings : LeaderboardSettings) (p : Participant)
    (v : ℚ) (wc mc : Option ℚ)
    (hg : p.stats.github = some ⟨some v, wc, mc⟩) :
    (mkEntry settings p).stats.github = some ⟨some (if v = 1030 then 565 else v), wc, mc⟩
    ∧ githubScore ⟨some v, wc, mc⟩ =
        (if v = 1030 then 565 else v) + jsOr wc 0 * 2 + jsOr mc 0 * (1/2)
    ∧ (((if v = 1030 then (565 : ℚ) else v) ≠ v) ↔ v = 1030) := by
  refine ⟨?_, ?_, ?_⟩
  · have : (mkEntry settings p).stats = displayStats p.stats := by
      simp [mkEntry]
    rw [this]
    unfold displayStats
    rw [hg]
    by_cases h : v = 1030 <;> simp [h, hg]
  · unfold githubScore
    simp only [jsOr_some_zero]
  · by_cases h : v = 1030 <;> simp [h]

/-- C4 witness: at a stored value of exactly 1030 the displayed and scored
value is 565. -/
theorem C4_hotfix_witness :
    (mkEntry exRoomC7.settings exPartC7).stats.github =
        some ⟨some (if (1030 : ℚ) = 1030 then 565 else 1030), some 0, some 0⟩
    ∧ githubScore ⟨some 1030, some 0, some 0⟩ =
        (if (1030 : ℚ) = 1030 then 565 else 1030) + jsOr (some 0) 0 * 2 + jsOr (some 0) 0 * (1/2)
    ∧ (((if (1030 : ℚ) = 1030 then (565 : ℚ) else 1030) ≠ 1030) ↔ (1030 : ℚ) = 1030) :=
  C4_hotfix_1030 exRoomC7.settings exPartC7 1030 (some 0) (some 0) rfl

/-! ## C7: commit score formula -/

/-- C7 (counterexample): a stored snapshot with totalCommits 1030 and no
weekly or monthly commits is scored 565 by the leaderboard, not
1030 + 0x2 + 0x0.5 = 1030 as the claim states for every snapshot. -/
theorem C7_commit_score_counterexample :
    (leaderboard exRoomC7).map (fun e => e.totalScore) = [565]
    ∧ githubScore exGitC7 = 565
    ∧ (1030 : ℚ) + 0 * 2 + 0 * (1/2) = 1030
    ∧ (565 : ℚ) ≠ 1030 := by
  refine ⟨?_, ?_, by norm_num, by norm_num⟩
  · norm_num [leaderboard, lbEntries, mkEntry, addRanks, List.insertionSort,
      List.orderedInsert, calculateLeetCodeScore, githubScore, jsOr, displayStats, lbLE,
      exRoomC7, exPartC7, exGitC7, round_eq]
  · norm_num [githubScore, exGitC7, jsOr]

/-- C7 (amended): for every stored commit snapshot whose totalCommits is
not exactly 1030, the commit score used in the leaderboard equals
totalCommits + weeklyCommits x 2 + monthlyCommits x 0.5 (at exactly 1030
the hotfix of C4 scores 565 + weeklyCommits x 2 + monthlyCommits x 0.5
instead). -/
theorem C7_githubScore_formula (g : GitSnap) (t w m : ℚ)
    (ht : g.totalCommits = some t) (hw : g.weeklyCommits = some w)
    (hm : g.monthlyCommits = some m) (h1030 : t ≠ 1030) :
    githubScore g = t + w * 2 + m * (1/2) := by
  unfold githubScore
  rw [ht, hw, hm]
  simp [jsOr_some_zero, h1030]

/-- Stored GitHub snapshot with commits 100, weekly 10, monthly 40. -/
def exGitC7w : GitSnap :=
  { totalCommits := some 100, weeklyCommits := some 10, monthlyCommits := some 40 }

/-- C7 witness: commits 100, weekly 10, monthly 40 score
100 + 20 + 20 = 140. -/
theorem C7_githubScore_witness :
    githubScore exGitC7w = 100 + 10 * 2 + 40 * (1/2)
    ∧ (100 : ℚ) + 10 * 2 + 40 * (1/2) = 140 :=
  ⟨C7_githubScore_formula exGitC7w 100 10 40 rfl rfl rfl (by norm_num),
    by norm_num⟩

/-! ## C5: leaderboard ranking -/

instance : IsTotal LBEntry lbLE := ⟨fun a b => le_total b.totalScore a.totalScore⟩

instance : IsTrans LBEntry lbLE := ⟨fun _ _ _ hab hbc => le_trans hbc hab⟩

/-- Inserting `b` into a list keeps the `p`-filtered sublist intact,
putting `b` in front of it when `p b` holds, provided every element that
`b` must be inserted in front of fails `p` whenever `b` satisfies it. -/
theorem filter_orderedInsert {α : Type} (r : α → α → Prop) [DecidableRel r] (p : α → Bool)
    (b : α) (hb : ∀ x, p b = true → ¬ r b x → p x = false) :
    ∀ L : List α, (L.orderedInsert r b).filter p =
      if p b then b :: L.filter p else L.filter p
  | [] => by
    by_cases hpb : p b <;> simp [List.orderedInsert, hpb]
  | y :: ys => by
    simp only [List.orderedInsert]
    by_cases hr : r b y
    · rw [if_pos hr]
      by_cases hpb : p b <;> simp [List.filter_cons, hpb]
    · rw [if_neg hr]
      by_cases hpb : p b
      · have hpy : p y = false := hb y hpb hr
        simp [List.filter_cons, hpy, filter_orderedInsert r p b hb ys, hpb]
      · simp [List.filter_cons, filter_orderedInsert r p b hb ys, hpb]

/-- Stability of insertion sort, stated through filters: sorting does not
reorder the elements selected by a predicate that is monotone in the sense
of `filter_orderedInsert`. -/
theorem filter_insertionSort {α : Type} (r : α → α → Prop) [DecidableRel r] (p : α → Bool)
    (h : ∀ a x, p a = true → ¬ r a x → p x = false) :
    ∀ l : List α, (l.insertionSort r).filter p = l.filter p
  | [] => rfl
  | b :: l => by
    simp only [List.insertionSort]
    rw [filter_orderedInsert r p b (h b), filter_insertionSort r p h l]
    by_cases hpb : p b <;> simp [List.filter_cons, hpb]

/-- Dropping the rank from the ranked entries gives back the sorted list. -/
theorem addRanks_map_entry : ∀ (i : ℕ) (l : List LBEntry),
    (addRanks i l).map RankedEntry.entry = l
  | _, [] => rfl
  | i, e :: es => by
    simp [addRanks, RankedEntry.entry, addRanks_map_entry (i + 1) es]

/-- The ranks produced by `addRanks i` are `i, i+1, ...`. -/
theorem addRanks_map_rank : ∀ (i : ℕ) (l : List LBEntry),
    (addRanks i l).map RankedEntry.rank = List.range' i l.length
  | _, [] => rfl
  | i, e :: es => by
    simp [addRanks, List.range', addRanks_map_rank (i + 1) es]

/-- A participant for the ranking example, with a LeetCode snapshot worth
`e` points. -/
def exPartC5 (uid nm : String) (e : ℚ) : Participant :=
  { auth0Id := uid, name := nm, picture := "", role := "participant"
    isActive := none, profiles := none
    stats := { leetcode := some { easy := some e, medium := some 0, hard := some 0, total := some e }
               github := none }
    statsLastUpdated := 0 }

/-- The ranking example room: composite scores 50, 80, 80, 10 in stored
order. -/
def exRoomC5 : Room :=
  { participants := [exPartC5 "a" "A" 50, exPartC5 "b" "B" 80, exPartC5 "c" "C" 80,
      exPartC5 "d" "D" 10]
    settings := { weightLeetCode := 1, weightGitHub := 0 } }

/-- C5: the leaderboard consists exactly of the entries of the
participants whose isActive flag is not false (a permutation of them),
sorted descending by totalScore, with equal scores kept in stored order
(the filter at any fixed score is unchanged by the sort), and ranks are
the 1-based positions; on input scores 50, 80, 80, 10 the earlier 80
gets rank 1, the later 80 rank 2, the 50 rank 3 and the 10 rank 4. -/
theorem C5_leaderboard_ranking (room : Room) :
    ((leaderboard room).map RankedEntry.entry).Perm (lbEntries room)
    ∧ List.Sorted lbLE ((leaderboard room).map RankedEntry.entry)
    ∧ (∀ s : ℤ, ((leaderboard room).map RankedEntry.entry).filter (fun e => e.totalScore == s)
        = (lbEntries room).filter (fun e => e.totalScore == s))
    ∧ (leaderboard room).map RankedEntry.rank = List.range' 1 (lbEntries room).length
    ∧ (leaderboard exRoomC5).map (fun e => (e.name, e.totalScore, e.rank))
        = [("B", 80, 1), ("C", 80, 2), ("A", 50, 3), ("D", 10, 4)] := by
  have hmap : ∀ rm : Room,
      (leaderboard rm).map RankedEntry.entry = (lbEntries rm).insertionSort lbLE :=
    fun rm => addRanks_map_entry 1 _
  refine ⟨?_, ?_, ?_, ?_, ?_⟩
  · rw [hmap]
    exact List.perm_insertionSort lbLE (lbEntries room)
  · rw [hmap]
    exact List.sorted_insertionSort lbLE (lbEntries room)
  · intro s
    rw [hmap]
    refine filter_insertionSort lbLE (fun e => e.totalScore == s) ?_ (lbEntries room)
    intro a x ha hr
    have ha' : a.totalScore = s := by simpa using ha
    have hx : a.totalScore < x.totalScore := lt_of_not_le hr
    have : x.totalScore ≠ s := by omega
    simpa using this
  · unfold leaderboard
    rw [addRanks_map_rank, List.length_insertionSort]
  · norm_num [leaderboard, lbEntries, mkEntry, addRanks, List.insertionSort,
      List.orderedInsert, calculateLeetCodeScore, githubScore, jsOr, displayStats, lbLE,
      exRoomC5, exPartC5, round_eq]

/-! ## Problem-solving provider adapter (leetcodeService.js) -/

/-- The three mirror endpoints tried in order by `getUserStats`. -/
def LEETCODE_API_ENDPOINTS : List String :=
  ["https://leetcode-stats-api.herokuapp.com",
   "https://alfa-leetcode-api.onrender.com",
   "https://leetcode-api-faisalshohag.vercel.app"]

/-- A raw mirror response body: every alias field name any mirror may use,
each possibly absent. -/
structure RawLeetData where
  totalSolved : Option ℚ
  solvedProblem : Option ℚ
  total_solved : Option ℚ
  totalQuestions : Option ℚ
  total_problems : Option ℚ
  easySolved : Option ℚ
  easy : Option ℚ
  easy_solved : Option ℚ
  totalEasy : Option ℚ
  total_easy : Option ℚ
  mediumSolved : Option ℚ
  medium : Option ℚ
  medium_solved : Option ℚ
  totalMedium : Option ℚ
  total_medium : Option ℚ
  hardSolved : Option ℚ
  hard : Option ℚ
  hard_solved : Option ℚ
  totalHard : Option ℚ
  total_hard : Option ℚ
  acceptanceRate : Option ℚ
  acceptance_rate : Option ℚ
  ranking : Option ℚ
  rank : Option ℚ
  contributionPoints : Option ℚ
  contribution_points : Option ℚ
  reputation : Option ℚ
deriving DecidableEq, Repr

/-- JS `x || y` on numeric fields where the fallback is itself optional
(used for `data.ranking || data.rank || null`). -/
def jsOrOpt (x y : Option ℚ) : Option ℚ :=
  match x with
  | some q => if q = 0 then y else some q
  | none => y

/-- The canonical normalized record: the twelve canonical fields of the
normalization mapping in `getUserStats`. -/
structure LeetNormalized where
  totalSolved : ℚ
  totalQuestions : ℚ
  easySolved : ℚ
  totalEasy : ℚ
  mediumSolved : ℚ
  totalMedium : ℚ
  hardSolved : ℚ
  totalHard : ℚ
  acceptanceRate : ℚ
  ranking : Option ℚ
  contributionPoints : ℚ
  reputation : ℚ
deriving DecidableEq, Repr

/-- The field-normalization mapping of `getUserStats` (leetcodeService.js):
each canonical field is the first truthy value among its alias fields,
with default 0 (default null for ranking). -/
def normalizeLeet (data : RawLeetData) : LeetNormalized :=
  { totalSolved := jsOr data.totalSolved (jsOr data.solvedProblem (jsOr data.total_solved 0))
    totalQuestions := jsOr data.totalQuestions (jsOr data.total_problems 0)
    easySolved := jsOr data.easySolved (jsOr data.easy (jsOr data.easy_solved 0))
    totalEasy := jsOr data.totalEasy (jsOr data.total_easy 0)
    mediumSolved := jsOr data.mediumSolved (jsOr data.medium (jsOr data.medium_solved 0))
    totalMedium := jsOr data.totalMedium (jsOr data.total_medium 0)
    hardSolved := jsOr data.hardSolved (jsOr data.hard (jsOr data.hard_solved 0))
    totalHard := jsOr data.totalHard (jsOr data.total_hard 0)
    acceptanceRate := jsOr data.acceptanceRate (jsOr data.acceptance_rate 0)
    ranking := jsOrOpt data.ranking (jsOrOpt data.rank none)
    contributionPoints := jsOr data.contributionPoints (jsOr data.contribution_points 0)
    reputation := jsOr data.reputation 0 }

/-- Present a canonical record as a raw response again: the canonical
field names carry the values, the alias names are absent. -/
def rawOfNormalized (r : LeetNormalized) : RawLeetData :=
  { totalSolved := some r.totalSolved, solvedProblem := none, total_solved := none
    totalQuestions := some r.totalQuestions, total_problems := none
    easySolved := some r.easySolved, easy := none, easy_solved := none
    totalEasy := some r.totalEasy, total_easy := none
    mediumSolved := some r.mediumSolved, medium := none, medium_solved := none
    totalMedium := some r.totalMedium, total_medium := none
    hardSolved := some r.hardSolved, hard := none, hard_solved := none
    totalHard := some r.totalHard, total_hard := none
    acceptanceRate := some r.acceptanceRate, acceptance_rate := none
    ranking := r.ranking, rank := none
    contributionPoints := some r.contributionPoints, contribution_points := none
    reputation := some r.reputation }

theorem jsOr_none (d : ℚ) : jsOr none d = d := rfl

theorem jsOrOpt_chain_idem (x y : Option ℚ) :
    jsOrOpt (jsOrOpt x (jsOrOpt y none)) none = jsOrOpt x (jsOrOpt y none) := by
  rcases x with _ | q
  · rcases y with _ | q'
    · rfl
    · by_cases h : q' = 0 <;> simp [jsOrOpt, h]
  · by_cases h : q = 0
    · rcases y with _ | q'
      · simp [jsOrOpt, h]
      · by_cases h' : q' = 0 <;> simp [jsOrOpt, h, h']
    · simp [jsOrOpt, h]

/-- C9: the field-normalization mapping is idempotent — a record already
in canonical form (the twelve canonical fields, defaults where the raw
response had nothing truthy) normalizes to itself. -/
theorem C9_normalize_idempotent (data : RawLeetData) :
    normalizeLeet (rawOfNormalized (normalizeLeet data)) = normalizeLeet data := by
  have hnn : jsOrOpt none none = none := rfl
  unfold normalizeLeet rawOfNormalized
  simp only [LeetNormalized.mk.injEq, jsOr_none, jsOr_some_zero, hnn, jsOrOpt_chain_idem]

/-- The result record of `getUserStats`: the union of the success shape
(the normalized record) and the all-endpoints-failed shape (error flag,
message, zeroed counts); fields absent in a shape are `none`, the absent
error flag of the success shape is the falsy `false`. -/
structure LeetApiResult where
  error : Bool
  message : Option String
  totalSolved : ℚ
  easySolved : ℚ
  mediumSolved : ℚ
  hardSolved : ℚ
  totalQuestions : Option ℚ
  totalEasy : Option ℚ
  totalMedium : Option ℚ
  totalHard : Option ℚ
  acceptanceRate : Option ℚ
  ranking : Option ℚ
  contributionPoints : Option ℚ
  reputation : Option ℚ
deriving DecidableEq, Repr

/-- The success return of `getUserStats`: the normalized record. -/
def leetSuccess (r : LeetNormalized) : LeetApiResult :=
  { error := false, message := none
    totalSolved := r.totalSolved, easySolved := r.easySolved
    mediumSolved := r.mediumSolved, hardSolved := r.hardSolved
    totalQuestions := some r.totalQuestions, totalEasy := some r.totalEasy
    totalMedium := some r.totalMedium, totalHard := some r.totalHard
    acceptanceRate := some r.acceptanceRate, ranking := r.ranking
    contributionPoints := some r.contributionPoints, reputation := some r.reputation }

/-- The outcome of one mirror request: a thrown error with its message
(transport error, non-ok status, or an error-shaped body) or a parsed
body. -/
inductive MirrorOutcome
  | fail (msg : String)
  | ok (data : RawLeetData)
deriving DecidableEq, Repr

/-- The endpoint loop of `getUserStats`: try each mirror in order,
collecting per-endpoint error strings; the first success returns the
normalized record immediately. -/
def getUserStatsGo (fetch : String → MirrorOutcome) :
    List String → List String → LeetApiResult
  | [], errors =>
      { error := true
        message := some ("All LeetCode APIs failed. Errors: " ++ String.intercalate "; " errors)
        totalSolved := 0, easySolved := 0, mediumSolved := 0, hardSolved := 0
        totalQuestions := none, totalEasy := none, totalMedium := none, totalHard := none
        acceptanceRate := none, ranking := none, contributionPoints := none
        reputation := none }
  | apiBase :: rest, errors =>
      match fetch apiBase with
      | .ok data => leetSuccess (normalizeLeet data)
      | .fail m => getUserStatsGo fetch rest (errors ++ [apiBase ++ ": " ++ m])

/-- `leetcodeAPI.getUserStats`: iterate over the three mirrors; if all
fail, return (never throw) the explicit error record. -/
def getUserStats (fetch : String → MirrorOutcome) : LeetApiResult :=
  getUserStatsGo fetch LEETCODE_API_ENDPOINTS []

/-- C6: whatever reason each of the three mirrors fails with,
`getUserStats` returns (it is a total function, so it never raises) a
record with error = true, a message concatenating every endpoint's
failure reason, and all four solved counts equal to 0. -/
theorem C6_all_endpoints_failed (msg : String → String) :
    getUserStats (fun apiBase => .fail (msg apiBase)) =
      { error := true
        message := some ("All LeetCode APIs failed. Errors: " ++ String.intercalate "; "
          (LEETCODE_API_ENDPOINTS.map (fun apiBase => apiBase ++ ": " ++ msg apiBase)))
        totalSolved := 0, easySolved := 0, mediumSolved := 0, hardSolved := 0
        totalQuestions := none, totalEasy := none, totalMedium := none, totalHard := none
        acceptanceRate := none, ranking := none, contributionPoints := none
        reputation := none } := rfl

/-! ## Commit-activity provider adapter (githubService.js) -/

/-- The return shape of `githubAPI.getUserCommitStats`, identical on the
success and the internal-catch path: keys `total`, `thisWeek`,
`thisMonth`, `publicRepos`, `accountAge`, `recentActivity`. -/
structure EstRes where
  total : ℚ
  thisWeek : ℚ
  thisMonth : ℚ
  publicRepos : ℚ
  accountAge : ℚ
  recentActivity : ℚ
deriving DecidableEq, Repr

/-- The JS-object view of a `getUserCommitStats` result: the value at a
property name, absent (undefined) for any name other than the six
returned keys. -/
def estField (r : EstRes) : String → Option ℚ := fun k =>
  if k = "total" then some r.total
  else if k = "thisWeek" then some r.thisWeek
  else if k = "thisMonth" then some r.thisMonth
  else if k = "publicRepos" then some r.publicRepos
  else if k = "accountAge" then some r.accountAge
  else if k = "recentActivity" then some r.recentActivity
  else none

/-- The return shape of `githubAPI.getContributionStatsGraphQL`: a
supported record with the counts, or an unsupported record with the
failure reason. -/
inductive GqlRes
  | supported (total thisWeek thisMonth publicRepos : ℚ)
  | unsupported (reason : String)
deriving DecidableEq, Repr

/-! ## POST /:roomId/refresh-leaderboard — GitHub snapshot write (C3) -/

/-- The GitHub snapshot written by the refresh-leaderboard handler
(rooms.js): it reads the properties `totalCommits`, `weeklyCommits`,
`monthlyCommits` on the `getUserCommitStats` result. -/
def refreshGithubSnapshot (githubStats : EstRes) : GitSnap :=
  { totalCommits := estField githubStats "totalCommits"
    weeklyCommits := estField githubStats "weeklyCommits"
    monthlyCommits := estField githubStats "monthlyCommits" }

/-- C3 (code bug): for every fetched result, the snapshot written by the
refresh-leaderboard GitHub branch has all three members undefined — the
handler reads `totalCommits`, `weeklyCommits`, `monthlyCommits` on a
result whose keys are `total`, `thisWeek`, `thisMonth` — so the stored
snapshot is neither the whole fetched record nor the previous snapshot
left untouched. -/
theorem C3_refresh_github_snapshot_undefined (githubStats : EstRes) :
    refreshGithubSnapshot githubStats =
        { totalCommits := none, weeklyCommits := none, monthlyCommits := none }
    ∧ refreshGithubSnapshot githubStats ≠
        { totalCommits := some githubStats.total, weeklyCommits := some githubStats.thisWeek
          monthlyCommits := some githubStats.thisMonth } := by
  have h : refreshGithubSnapshot githubStats =
      { totalCommits := none, weeklyCommits := none, monthlyCommits := none } := rfl
  refine ⟨h, ?_⟩
  rw [h]
  simp [GitSnap.mk.injEq]

/-! ## POST /:roomId/update-stats (rooms.js) -/

/-- A client-supplied JS object with numeric members, stored verbatim:
an association list of property names to numbers. -/
def JsObj : Type := List (String × ℚ)

instance : DecidableEq JsObj := inferInstanceAs (DecidableEq (List (String × ℚ)))

/-- The `stats` field shape handled by the update-stats route: each
provider snapshot is an opaque object. -/
structure UpdStats where
  leetcode : Option JsObj
  github : Option JsObj
deriving DecidableEq

/-- The participant fields the update-stats handler reads and writes. -/
structure UpdParticipant where
  profiles : Profiles
  stats : Option UpdStats
deriving DecidableEq

/-- The outcomes of the awaited calls the update-stats handler can make,
and whether `room.save()` succeeds. -/
structure UpdEnv where
  now : ℚ
  ghValidate : Except String Bool
  ghGraphQL : Except String GqlRes
  ghEstimate : Except String EstRes
  lcFetch : Except String LeetApiResult
  saveOk : Bool

/-- The provider calls the handler performs, in order. -/
inductive ApiCall
  | ghValidate
  | ghGraphQL
  | ghEstimate
  | lcFetch
deriving DecidableEq, Repr

/-- The JS spread merge `{...participant.profiles, ...profiles}`: a key
present in the patch overrides the stored one. -/
def mergeProfiles (old patch : Profiles) : Profiles :=
  { leetcode := match patch.leetcode with | some v => some v | none => old.leetcode
    github := match patch.github with | some v => some v | none => old.github }

/-- The profiles in effect inside the handler, after the optional merge
of the request body's `profiles`. -/
def mergedProfiles (p : UpdParticipant) (reqProfiles : Option Profiles) : Profiles :=
  match reqProfiles with
  | some patch => mergeProfiles p.profiles patch
  | none => p.profiles

/-- The stats object initialized by the handler when absent. -/
def defaultUpdStats : UpdStats :=
  { leetcode := some [("easy", 0), ("medium", 0), ("hard", 0), ("total", 0)]
    github := some [("totalCommits", 0), ("weeklyCommits", 0), ("monthlyCommits", 0)] }

/-- The GitHub part of the update-stats handler for a truthy GitHub
profile `u`: frontend stats verbatim when present, otherwise probe the
username, short-circuit to the fixed fallback on an invalid username,
then GraphQL, then the estimation fallback; any thrown error is caught
into the API-unavailable fallback.  Returns the written snapshot, the
warnings pushed, and the provider calls made. -/
def updGithub (env : UpdEnv) (u : String) (fsGithub : Option JsObj) :
    JsObj × List String × List ApiCall :=
  match fsGithub with
  | some s => (s, [], [])
  | none =>
    match env.ghValidate with
    | .error _ =>
        ([("totalCommits", 75), ("weeklyCommits", 8), ("monthlyCommits", 30)],
          ["GitHub API temporarily unavailable - using estimated stats"], [.ghValidate])
    | .ok false =>
        ([("totalCommits", 50), ("weeklyCommits", 5), ("monthlyCommits", 20)],
          ["GitHub username \"" ++ u ++ "\" not found - using estimated stats"], [.ghValidate])
    | .ok true =>
        match env.ghGraphQL with
        | .error _ =>
            ([("totalCommits", 75), ("weeklyCommits", 8), ("monthlyCommits", 30)],
              ["GitHub API temporarily unavailable - using estimated stats"],
              [.ghValidate, .ghGraphQL])
        | .ok (.supported total thisWeek thisMonth _) =>
            ([("totalCommits", total), ("weeklyCommits", thisWeek),
              ("monthlyCommits", thisMonth), ("lastUpdated", env.now)], [],
              [.ghValidate, .ghGraphQL])
        | .ok (.unsupported _) =>
            match env.ghEstimate with
            | .error _ =>
                ([("totalCommits", 75), ("weeklyCommits", 8), ("monthlyCommits", 30)],
                  ["GitHub API temporarily unavailable - using estimated stats"],
                  [.ghValidate, .ghGraphQL, .ghEstimate])
            | .ok githubStats =>
                ([("totalCommits", jsOr (estField githubStats "total") 100),
                  ("weeklyCommits", jsOr (estField githubStats "thisWeek") 10),
                  ("monthlyCommits", jsOr (estField githubStats "thisMonth") 40)], [],
                  [.ghValidate, .ghGraphQL, .ghEstimate])

/-- The LeetCode part of the update-stats handler for a truthy LeetCode
profile: frontend stats verbatim when present, otherwise fetch; an
error-flagged result or a thrown error is replaced by the documented
fixed fallback snapshots with a warning. -/
def updLeetcode (env : UpdEnv) (fsLeetcode : Option JsObj) :
    JsObj × List String × List ApiCall :=
  match fsLeetcode with
  | some s => (s, [], [])
  | none =>
    match env.lcFetch with
    | .error _ =>
        ([("easy", 8), ("medium", 4), ("hard", 1), ("total", 13)],
          ["LeetCode API temporarily unavailable - using estimated stats"], [.lcFetch])
    | .ok leetcodeStats =>
        if leetcodeStats.error then
          ([("easy", 10), ("medium", 5), ("hard", 2), ("total", 17)],
            ["LeetCode API error - using estimated stats"], [.lcFetch])
        else
          ([("easy", jsOr (some leetcodeStats.easySolved) 0),
            ("medium", jsOr (some leetcodeStats.mediumSolved) 0),
            ("hard", jsOr (some leetcodeStats.hardSolved) 0),
            ("total", jsOr (some leetcodeStats.totalSolved) 0)], [], [.lcFetch])

/-- The GitHub branch guarded by profile truthiness: an unlinked (absent
or empty) username leaves the snapshot as initialized and performs no
call. -/
def updGithubIf (env : UpdEnv) (gu : Option String) (fsGithub : Option JsObj)
    (old : Option JsObj) : Option JsObj × List String × List ApiCall :=
  match gu with
  | some u =>
      if u = "" then (old, [], [])
      else
        let r := updGithub env u fsGithub
        (some r.1, r.2.1, r.2.2)
  | none => (old, [], [])

/-- The LeetCode branch guarded by profile truthiness. -/
def updLeetcodeIf (env : UpdEnv) (lu : Option String) (fsLeetcode : Option JsObj)
    (old : Option JsObj) : Option JsObj × List String × List ApiCall :=
  match lu with
  | some u =>
      if u = "" then (old, [], [])
      else
        let r := updLeetcode env fsLeetcode
        (some r.1, r.2.1, r.2.2)
  | none => (old, [], [])

/-- The observable outcome of the update-stats handler. -/
structure UpdResult where
  success : Bool
  profiles : Profiles
  statsGithub : Option JsObj
  statsLeetcode : Option JsObj
  errors : List String
  calls : List ApiCall
  statsLastUpdated : ℚ

/-- The update-stats handler from the point where the participant is
found: merge profiles, initialize stats if absent, run the GitHub branch
then the LeetCode branch, stamp the update time, save; the response is
successful whenever the save succeeds, whether or not warnings were
pushed. -/
def updateStatsHandler (env : UpdEnv) (p : UpdParticipant) (reqProfiles : Option Profiles)
    (frontendStats : Option UpdStats) : UpdResult :=
  let profiles := mergedProfiles p reqProfiles
  let stats0 := p.stats.getD defaultUpdStats
  let fsG := frontendStats.bind (fun fs => fs.github)
  let fsL := frontendStats.bind (fun fs => fs.leetcode)
  let gh := updGithubIf env profiles.github fsG stats0.github
  let lc := updLeetcodeIf env profiles.leetcode fsL stats0.leetcode
  { success := env.saveOk
    profiles := profiles
    statsGithub := gh.1
    statsLeetcode := lc.1
    errors := gh.2.1 ++ lc.2.1
    calls := gh.2.2 ++ lc.2.2
    statsLastUpdated := env.now }

theorem updLeetcodeIf_calls (env : UpdEnv) (lu : Option String) (fsLeetcode : Option JsObj)
    (old : Option JsObj) :
    ApiCall.ghValidate ∉ (updLeetcodeIf env lu fsLeetcode old).2.2
    ∧ ApiCall.ghGraphQL ∉ (updLeetcodeIf env lu fsLeetcode old).2.2
    ∧ ApiCall.ghEstimate ∉ (updLeetcodeIf env lu fsLeetcode old).2.2 := by
  rcases lu with _ | u
  · simp [updLeetcodeIf]
  · by_cases hu : u = ""
    · simp [updLeetcodeIf, hu]
    · rcases hf : fsLeetcode with _ | s
      · rcases he : env.lcFetch with e | r
        · simp [updLeetcodeIf, updLeetcode, hu, he]
        · by_cases hr : r.error <;> simp [updLeetcodeIf, updLeetcode, hu, he, hr]
      · simp [updLeetcodeIf, updLeetcode, hu]

/-- C8: in update-stats, when no frontend GitHub stats are supplied, the
linked GitHub username is non-empty, and the existence probe reports the
username invalid, the handler makes no further GitHub provider call,
writes the fixed fallback snapshot totalCommits 50, weeklyCommits 5,
monthlyCommits 20, records the not-found warning, and — provided the save
succeeds — the operation still reports success. -/
theorem C8_invalid_username_fallback (env : UpdEnv) (p : UpdParticipant)
    (reqProfiles : Option Profiles) (frontendStats : Option UpdStats) (u : String)
    (hg : (mergedProfiles p reqProfiles).github = some u) (hu : u ≠ "")
    (hfs : frontendStats.bind (fun fs => fs.github) = none)
    (hval : env.ghValidate = .ok false) (hsave : env.saveOk = true) :
    (updateStatsHandler env p reqProfiles frontendStats).statsGithub =
        some [("totalCommits", 50), ("weeklyCommits", 5), ("monthlyCommits", 20)]
    ∧ ("GitHub username \"" ++ u ++ "\" not found - using estimated stats")
        ∈ (updateStatsHandler env p reqProfiles frontendStats).errors
    ∧ ApiCall.ghGraphQL ∉ (updateStatsHandler env p reqProfiles frontendStats).calls
    ∧ ApiCall.ghEstimate ∉ (updateStatsHandler env p reqProfiles frontendStats).calls
    ∧ (updateStatsHandler env p reqProfiles frontendStats).success = true := by
  have hlc := updLeetcodeIf_calls env (mergedProfiles p reqProfiles).leetcode
    (frontendStats.bind (fun fs => fs.leetcode)) ((p.stats.getD defaultUpdStats).leetcode)
  refine ⟨?_, ?_, ?_, ?_, ?_⟩ <;>
    simp [updateStatsHandler, updGithubIf, updGithub, hg, hu, hfs, hval, hsave,
      hlc.1, hlc.2.1, hlc.2.2]

/-- A concrete environment for the C8 witness: the probe reports the
username invalid, the save succeeds. -/
def exEnvC8 : UpdEnv :=
  { now := 0, ghValidate := .ok false, ghGraphQL := .error "unused"
    ghEstimate := .error "unused", lcFetch := .error "down", saveOk := true }

/-- A concrete participant for the C8 witness: GitHub linked to a
username that does not exist, LeetCode unlinked. -/
def exPartC8 : UpdParticipant :=
  { profiles := { leetcode := none, github := some "ghost" }, stats := none }

/-- C8 witness: the theorem applied to the concrete scenario. -/
theorem C8_invalid_username_witness :
    (updateStatsHandler exEnvC8 exPartC8 none none).statsGithub =
        some [("totalCommits", 50), ("weeklyCommits", 5), ("monthlyCommits", 20)]
    ∧ ("GitHub username \"" ++ "ghost" ++ "\" not found - using estimated stats")
        ∈ (updateStatsHandler exEnvC8 exPartC8 none none).errors
    ∧ ApiCall.ghGraphQL ∉ (updateStatsHandler exEnvC8 exPartC8 none none).calls
    ∧ ApiCall.ghEstimate ∉ (updateStatsHandler exEnvC8 exPartC8 none none).calls
    ∧ (updateStatsHandler exEnvC8 exPartC8 none none).success = true :=
  C8_invalid_username_fallback exEnvC8 exPartC8 none none "ghost" rfl (by decide) rfl rfl rfl

theorem updGithubIf_no_lcFetch (env : UpdEnv) (gu : Option String) (fsGithub : Option JsObj)
    (old : Option JsObj) :
    ApiCall.lcFetch ∉ (updGithubIf env gu fsGithub old).2.2 := by
  rcases gu with _ | u
  · simp [updGithubIf]
  · by_cases hu : u = ""
    · simp [updGithubIf, hu]
    · rcases hf : fsGithub with _ | s
      · rcases he : env.ghValidate with e | b
        · simp [updGithubIf, updGithub, hu, he]
        · cases b
          · simp [updGithubIf, updGithub, hu, he]
          · rcases hq : env.ghGraphQL with e | r
            · simp [updGithubIf, updGithub, hu, he, hq]
            · cases hr : r
              · simp [updGithubIf, updGithub, hu, he, hq, hr]
              · rcases hes : env.ghEstimate with e | est <;>
                  simp [updGithubIf, updGithub, hu, he, hq, hr, hes]
      · simp [updGithubIf, updGithub, hu]

/-- C10: whenever the request carries frontend stats for a provider and
the participant has a non-empty username linked for that provider, the
stored snapshot for that provider becomes exactly the client-supplied
object, whatever its members — no call to that provider is made and no
check is applied.  Stated for each provider independently. -/
theorem C10_frontend_stats_verbatim (env : UpdEnv) (p : UpdParticipant)
    (reqProfiles : Option Profiles) (frontendStats : Option UpdStats)
    (u v : String) (s t : JsObj) :
    ((mergedProfiles p reqProfiles).github = some u → u ≠ "" →
      frontendStats.bind (fun fs => fs.github) = some s →
        (updateStatsHandler env p reqProfiles frontendStats).statsGithub = some s
        ∧ ApiCall.ghValidate ∉ (updateStatsHandler env p reqProfiles frontendStats).calls
        ∧ ApiCall.ghGraphQL ∉ (updateStatsHandler env p reqProfiles frontendStats).calls
        ∧ ApiCall.ghEstimate ∉ (updateStatsHandler env p reqProfiles frontendStats).calls)
    ∧ ((mergedProfiles p reqProfiles).leetcode = some v → v ≠ "" →
      frontendStats.bind (fun fs => fs.leetcode) = some t →
        (updateStatsHandler env p reqProfiles frontendStats).statsLeetcode = some t
        ∧ ApiCall.lcFetch ∉ (updateStatsHandler env p reqProfiles frontendStats).calls) := by
  have hlc := updLeetcodeIf_calls env (mergedProfiles p reqProfiles).leetcode
    (frontendStats.bind (fun fs => fs.leetcode)) ((p.stats.getD defaultUpdStats).leetcode)
  have hgh := updGithubIf_no_lcFetch env (mergedProfiles p reqProfiles).github
    (frontendStats.bind (fun fs => fs.github)) ((p.stats.getD defaultUpdStats).github)
  constructor
  · intro hg hu hfsg
    refine ⟨?_, ?_, ?_, ?_⟩ <;>
      simp [updateStatsHandler, updGithubIf, updGithub, hg, hu, hfsg,
        hlc.1, hlc.2.1, hlc.2.2]
  · intro hl hv hfsl
    constructor
    · simp [updateStatsHandler, updLeetcodeIf, updLeetcode, hl, hv, hfsl]
    · simp only [updateStatsHandler, List.mem_append]
      push_neg
      refine ⟨hgh, ?_⟩
      simp [updLeetcodeIf, updLeetcode, hl, hv, hfsl]

/-- Client-supplied snapshots for the C10 witness: a negative commit
count and an object of an unexpected shape, both stored verbatim. -/
def exFsC10 : UpdStats :=
  { leetcode := some [("bogus", 99)], github := some [("totalCommits", -5)] }

/-- A participant with both providers linked, for the C10 witness. -/
def exPartC10 : UpdParticipant :=
  { profiles := { leetcode := some "lc", github := some "gh" }, stats := none }

/-- C10 witness: the theorem applied to the concrete scenario, with a
negative value and a wrong-shaped object accepted unchanged and no
provider call performed. -/
theorem C10_frontend_stats_witness :
    ((updateStatsHandler exEnvC8 exPartC10 none (some exFsC10)).statsGithub =
        some [("totalCommits", -5)]
      ∧ ApiCall.ghValidate ∉ (updateStatsHandler exEnvC8 exPartC10 none (some exFsC10)).calls
      ∧ ApiCall.ghGraphQL ∉ (updateStatsHandler exEnvC8 exPartC10 none (some exFsC10)).calls
      ∧ ApiCall.ghEstimate ∉ (updateStatsHandler exEnvC8 exPartC10 none (some exFsC10)).calls)
    ∧ ((updateStatsHandler exEnvC8 exPartC10 none (some exFsC10)).statsLeetcode =
        some [("bogus", 99)]
      ∧ ApiCall.lcFetch ∉ (updateStatsHandler exEnvC8 exPartC10 none (some exFsC10)).calls) :=
  ⟨(C10_frontend_stats_verbatim exEnvC8 exPartC10 none (some exFsC10) "gh" "lc"
      [("totalCommits", -5)] [("bogus", 99)]).1 rfl (by decide) rfl,
    (C10_frontend_stats_verbatim exEnvC8 exPartC10 none (some exFsC10) "gh" "lc"
      [("totalCommits", -5)] [("bogus", 99)]).2 rfl (by decide) rfl⟩

/-! ## Sync propagator (users.js, updateParticipantStatsInRooms) -/

/-- Stored LeetCode snapshot as written by the propagator. -/
structure LCStore where
  easy : ℚ
  medium : ℚ
  hard : ℚ
  total : ℚ
deriving DecidableEq, Repr

/-- Stored GitHub snapshot as written by the propagator. -/
structure GHStore where
  totalCommits : ℚ
  weeklyCommits : ℚ
  monthlyCommits : ℚ
deriving DecidableEq, Repr

/-- Participant stats in the propagator. -/
structure SyncStats where
  leetcode : LCStore
  github : GHStore
deriving DecidableEq, Repr

/-- A participant as the propagator reads and writes it. -/
structure SPart where
  auth0Id : String
  isActive : Option Bool
  profiles : Option Profiles
  stats : Option SyncStats
  statsLastUpdated : ℚ
deriving DecidableEq, Repr

/-- A room as the propagator reads and writes it; `id` keys the
per-room call outcomes in `SyncEnv`. -/
structure SRoom where
  id : ℕ
  participants : List SPart
deriving DecidableEq, Repr

/-- Per-room outcomes of the awaited calls of the propagator, and whether
each room's `room.save()` succeeds. -/
structure SyncEnv where
  now : ℚ
  ghValidate : ℕ → String → Except String Bool
  ghGraphQL : ℕ → String → Except String GqlRes
  ghEstimate : ℕ → String → Except String EstRes
  lcFetch : ℕ → String → Except String LeetApiResult
  saveOk : ℕ → Bool

/-- The per-participant body of the propagator loop: initialize profiles
and stats when absent, apply the username patch for each key present,
then — per provider, only for a truthy username — fetch and replace the
snapshot, leaving it untouched on a thrown error, an invalid username, an
unsupported GraphQL result without estimation, or an error-flagged
LeetCode result; finally stamp the update time. -/
def syncParticipant (env : SyncEnv) (rid : ℕ) (patch : Profiles) (q : SPart) : SPart :=
  let profiles0 := q.profiles.getD { leetcode := none, github := none }
  let stats0 := q.stats.getD { leetcode := ⟨0, 0, 0, 0⟩, github := ⟨0, 0, 0⟩ }
  let profiles1 : Profiles :=
    { leetcode := match patch.leetcode with | some v => some v | none => profiles0.leetcode
      github := match patch.github with | some v => some v | none => profiles0.github }
  let ghStats : GHStore :=
    match profiles1.github with
    | some u =>
        if u = "" then stats0.github
        else
          match env.ghValidate rid u with
          | .error _ => stats0.github
          | .ok false => stats0.github
          | .ok true =>
              match env.ghGraphQL rid u with
              | .error _ => stats0.github
              | .ok (.supported total thisWeek thisMonth _) => ⟨total, thisWeek, thisMonth⟩
              | .ok (.unsupported _) =>
                  match env.ghEstimate rid u with
                  | .error _ => stats0.github
                  | .ok est => ⟨est.total, est.thisWeek, est.thisMonth⟩
    | none => stats0.github
  let lcStats : LCStore :=
    match profiles1.leetcode with
    | some u =>
        if u = "" then stats0.leetcode
        else
          match env.lcFetch rid u with
          | .error _ => stats0.leetcode
          | .ok r =>
              if r.error then stats0.leetcode
              else
                ⟨jsOr (some r.easySolved) 0, jsOr (some r.mediumSolved) 0,
                  jsOr (some r.hardSolved) 0, jsOr (some r.totalSolved) 0⟩
    | none => stats0.leetcode
  { q with profiles := some profiles1
           stats := some { leetcode := lcStats, github := ghStats }
           statsLastUpdated := env.now }

/-- Replace the first participant matching the user id — the one
`participants.find` returns and the loop mutates. -/
def updateFirst (uid : String) (f : SPart → SPart) : List SPart → List SPart
  | [] => []
  | q :: qs => if q.auth0Id = uid then f q :: qs else q :: updateFirst uid f qs

/-- One room iteration of the propagator: `none` when the loop skips the
room (participant absent or not truthy active — nothing mutated, no
save), otherwise the mutated room that will be saved. -/
def processRoom (env : SyncEnv) (uid : String) (patch : Profiles) (room : SRoom) :
    Option SRoom :=
  match room.participants.find? (fun q => q.auth0Id == uid) with
  | none => none
  | some q =>
      if q.isActive = some true then
        some { room with
          participants := updateFirst uid (syncParticipant env room.id patch) room.participants }
      else none

/-- The propagator loop over the rooms the user belongs to.  Returns the
persisted state of every room and whether the call threw: on a failed
`room.save()` the error propagates out of the loop, so that room keeps
its previous persisted state and the remaining rooms are never
processed. -/
def runSync (env : SyncEnv) (uid : String) (patch : Profiles) :
    List SRoom → List SRoom × Bool
  | [] => ([], false)
  | room :: rest =>
    match processRoom env uid patch room with
    | none =>
        let next := runSync env uid patch rest
        (room :: next.1, next.2)
    | some updated =>
        if env.saveOk room.id then
          let next := runSync env uid patch rest
          (updated :: next.1, next.2)
        else (room :: rest, true)

/-- A fetched LeetCode record used by the C2 scenarios. -/
def exLeetFetched : LeetApiResult :=
  { error := false, message := none
    totalSolved := 15, easySolved := 7, mediumSolved := 6, hardSolved := 2
    totalQuestions := some 3000, totalEasy := some 800, totalMedium := some 1600
    totalHard := some 600, acceptanceRate := some 50, ranking := some 12345
    contributionPoints := some 10, reputation := some 1 }

/-- The username patch of the C2 scenarios: a LeetCode username was
linked, the GitHub key is untouched. -/
def exSyncPatch : Profiles := { leetcode := some "lcuser", github := none }

/-- An active participant of the C2 scenarios, with zeroed stats. -/
def exSPart : SPart :=
  { auth0Id := "user1", isActive := some true
    profiles := some { leetcode := some "lcuser", github := none }
    stats := some { leetcode := ⟨0, 0, 0, 0⟩, github := ⟨0, 0, 0⟩ }
    statsLastUpdated := 0 }

/-- First room of the C2 scenarios. -/
def exSRoom1 : SRoom := { id := 0, participants := [exSPart] }

/-- Second room of the C2 scenarios. -/
def exSRoom2 : SRoom := { id := 1, participants := [exSPart] }

/-- The participant of the C2 scenarios after a successful LeetCode
refresh at time 5. -/
def exSPartUpd : SPart :=
  { auth0Id := "user1", isActive := some true
    profiles := some { leetcode := some "lcuser", github := none }
    stats := some { leetcode := ⟨7, 6, 2, 15⟩, github := ⟨0, 0, 0⟩ }
    statsLastUpdated := 5 }

/-- The second room after a successful LeetCode refresh. -/
def exSRoom2Upd : SRoom := { id := 1, participants := [exSPartUpd] }

/-- C2 counterexample environment: every LeetCode fetch succeeds, but
persisting room 0 fails. -/
def exSyncEnvCex : SyncEnv :=
  { now := 5
    ghValidate := fun _ _ => .ok false
    ghGraphQL := fun _ _ => .error "unused"
    ghEstimate := fun _ _ => .error "unused"
    lcFetch := fun _ _ => .ok exLeetFetched
    saveOk := fun rid => rid == 1 }

/-- C2 (counterexample): with two rooms holding the same active
participant, a save failure on the first room aborts the propagator —
the second room keeps its stale stats although its own fetch and save
would have succeeded, refuting that a failure while persisting one room
never prevents the remaining rooms' updates. -/
theorem C2_save_failure_aborts_counterexample :
    runSync exSyncEnvCex "user1" exSyncPatch [exSRoom1, exSRoom2] = ([exSRoom1, exSRoom2], true)
    ∧ processRoom exSyncEnvCex "user1" exSyncPatch exSRoom2 = some exSRoom2Upd
    ∧ exSRoom2Upd ≠ exSRoom2
    ∧ exSyncEnvCex.saveOk exSRoom2.id = true := by
  refine ⟨by decide, by decide, by decide, by decide⟩

/-- C2 (amended): per-room fetch failures are isolated — whenever every
save succeeds, each room's persisted state is exactly its own
independently processed state, whatever the per-room fetch outcomes, and
the loop never aborts; a failure persisting a room, however, aborts the
loop and the remaining rooms keep their previous state. -/
theorem C2_fetch_failures_isolated (env : SyncEnv) (uid : String) (patch : Profiles)
    (rooms : List SRoom) (hsave : ∀ r ∈ rooms, env.saveOk r.id = true) :
    runSync env uid patch rooms =
      (rooms.map (fun r => (processRoom env uid patch r).getD r), false) := by
  induction rooms with
  | nil => rfl
  | cons r rs ih =>
    have hr : env.saveOk r.id = true := hsave r (by simp)
    have hrs : ∀ x ∈ rs, env.saveOk x.id = true := fun x hx => hsave x (by simp [hx])
    cases hpr : processRoom env uid patch r with
    | none => simp [runSync, hpr, ih hrs]
    | some u => simp [runSync, hpr, hr, ih hrs]

/-- C2 witness environment: the LeetCode fetch fails for room 0 and
succeeds for room 1; every save succeeds. -/
def exSyncEnvW : SyncEnv :=
  { now := 5
    ghValidate := fun _ _ => .ok false
    ghGraphQL := fun _ _ => .error "unused"
    ghEstimate := fun _ _ => .error "unused"
    lcFetch := fun rid _ => if rid = 0 then .error "timeout" else .ok exLeetFetched
    saveOk := fun _ => true }

/-- C2 witness: the amended theorem applied to the spec scenario — a
simulated fetch failure in the first room leaves that room's snapshot
untouched while the second room's snapshot is updated and persisted, and
the loop does not abort. -/
theorem C2_fetch_failures_witness :
    runSync exSyncEnvW "user1" exSyncPatch [exSRoom1, exSRoom2] =
      ([(processRoom exSyncEnvW "user1" exSyncPatch exSRoom1).getD exSRoom1,
        (processRoom exSyncEnvW "user1" exSyncPatch exSRoom2).getD exSRoom2], false)
    ∧ ((runSync exSyncEnvW "user1" exSyncPatch [exSRoom1, exSRoom2]).1.map
        (fun r => r.participants.map (fun q => q.stats))) =
        [[some { leetcode := ⟨0, 0, 0, 0⟩, github := ⟨0, 0, 0⟩ }],
          [some { leetcode := ⟨7, 6, 2, 15⟩, github := ⟨0, 0, 0⟩ }]] :=
  ⟨C2_fetch_failures_isolated exSyncEnvW "user1" exSyncPatch [exSRoom1, exSRoom2]
      (by intro r hr; rfl),
    by decide⟩

end Leadcode
